import Mathlib

/-!
Shallow embedding of the dynamic linked-list stack from `src/DynStack.c`
(header `DynStack.h`).

Modelling choices:

* An element is a C `void *`, i.e. a possibly-NULL pointer.  We model the
  pointer universe as `Option α` where `none` is the NULL pointer and
  `some a` is a non-NULL pointer to a value of type `α`.  This keeps the
  conflation present in the C API: `dynstackPop` returns a single `void *`
  channel, so a stored NULL pops as the same value as the empty-stack
  signal.
* A possibly-NULL `DynStack *` argument is `Option (DynStack α)`.
* The frame chain hanging off `top` is a `List (Option α)`: each cons cell
  is one `DynFrame` (its head is the frame's `data` field, its tail the
  chain reached through `next`).  The chain of a freshly allocated frame
  (`next == NULL`) is `[]`.
* `malloc` can fail, so allocating operations take an explicit `allocOk`
  oracle: `false` models a failed allocation of the new object.
* `deleteData` (the releaser) has no observable effect in a pure model, so
  operations that invoke it (`dynstackClear`, `dynstackFree`) additionally
  return the trace of arguments it was invoked on, in invocation order.
  Likewise `dynstackMap` returns the trace of arguments passed to `func`.
-/

/-- One stack frame of `DynStack.h` (`struct dynamicStackFrame`): a `data`
pointer plus the chain reachable through `next` (`[]` being `next == NULL`). -/
structure DynFrame (α : Type) where
  data : Option α
  next : List (Option α)
  deriving Repr, DecidableEq

/-- The stack header of `DynStack.h` (`struct dynamicStack`): the frame chain
reachable from `top`, the `size` counter, and the two stored function
pointers.  `size` is a C `unsigned int`; we idealise it as `Nat` (its width,
hence wrap-around point, is implementation-defined and unreachable for any
chain a machine can hold). -/
structure DynStack (α : Type) where
  top : List (Option α)
  size : Nat
  deleteData : Option α → Unit
  printData : Option α → String

/-- `dynstackNew` from `DynStack.c`: fails (NULL) when either function
pointer is NULL or when `malloc` fails; otherwise an empty stack storing
both function pointers. -/
def dynstackNew (deleteFunc : Option (Option α → Unit))
    (printFunc : Option (Option α → String)) (allocOk : Bool) :
    Option (DynStack α) :=
  match deleteFunc, printFunc with
  | some d, some p => if allocOk then some ⟨[], 0, d, p⟩ else none
  | _, _ => none

/-- `dynstackFrameNew` from `DynStack.c`: NULL when `malloc` fails, otherwise
a fresh frame holding `data` with `next = NULL`. -/
def dynstackFrameNew (data : Option α) (allocOk : Bool) : Option (DynFrame α) :=
  if allocOk then some ⟨data, []⟩ else none

/-- `dynstackPush` from `DynStack.c`: NULL stack or failed frame allocation
returns `false` with the stack untouched; otherwise the new frame is linked
as the new top, `size` is incremented, and `true` is returned. -/
def dynstackPush (stack : Option (DynStack α)) (data : Option α)
    (allocOk : Bool) : Option (DynStack α) × Bool :=
  match stack with
  | none => (none, false)
  | some s =>
    match dynstackFrameNew data allocOk with
    | none => (some s, false)
    | some toPush =>
      -- toPush->next = stack->top; stack->top = toPush; (stack->size)++
      (some { s with top := toPush.data :: s.top, size := s.size + 1 }, true)

/-- `dynstackPeek` from `DynStack.c`: NULL for a NULL stack or a NULL top,
otherwise `top->data` (note a stored NULL is returned as the same NULL). -/
def dynstackPeek (stack : Option (DynStack α)) : Option α :=
  match stack with
  | none => none
  | some s =>
    match s.top with
    | [] => none
    | d :: _ => d

/-- `dynstackPop` from `DynStack.c`: on a NULL stack or a NULL top, returns
NULL and changes nothing; otherwise unlinks the top frame, decrements
`size`, frees the frame (not its data) and returns `top->data`.  The first
component is the stack after the call, the second the returned pointer. -/
def dynstackPop (stack : Option (DynStack α)) :
    Option (DynStack α) × Option α :=
  match stack with
  | none => (none, none)
  | some s =>
    match s.top with
    | [] => (some s, none)
    | d :: rest => (some { s with top := rest, size := s.size - 1 }, d)

/-- `dynstackGetSize` from `DynStack.c`: 0 for a NULL stack, else the `size`
field. -/
def dynstackGetSize (stack : Option (DynStack α)) : Nat :=
  match stack with
  | none => 0
  | some s => s.size

/-- `dynstackIsEmpty` from `DynStack.c`: `dynstackGetSize(stack) == 0`. -/
def dynstackIsEmpty (stack : Option (DynStack α)) : Bool :=
  dynstackGetSize stack == 0

/-- The loop of `dynstackClear`: `while (!dynstackIsEmpty(stack))`
`stack->deleteData(dynstackPop(stack))`.  Structured as recursion on the
frame chain; each iteration is one `dynstackPop` (which on a non-NULL top
takes the head frame and decrements `size`).  Returns the stack when the
loop exits together with the trace of `deleteData` arguments.  The
`[], size+1` case is where the C loop never terminates (pop returns NULL
without touching `size`); it cannot be reached from a stack whose `size`
matches its chain. -/
def dynstackClearGo (dd : Option α → Unit) (pd : Option α → String) :
    List (Option α) → Nat → DynStack α × List (Option α)
  | top, 0 => (⟨top, 0, dd, pd⟩, [])
  | [], size + 1 => (⟨[], size + 1, dd, pd⟩, [])
  | d :: rest, size + 1 =>
    let r := dynstackClearGo dd pd rest size
    (r.1, d :: r.2)

/-- `dynstackClear` from `DynStack.c`: a no-op on a NULL stack; otherwise
pops every element, invoking `deleteData` on each popped pointer.  Returns
the stack after the call and the `deleteData` invocation trace. -/
def dynstackClear (stack : Option (DynStack α)) :
    Option (DynStack α) × List (Option α) :=
  match stack with
  | none => (none, [])
  | some s =>
    let r := dynstackClearGo s.deleteData s.printData s.top s.size
    (some r.1, r.2)

/-- `dynstackFree` from `DynStack.c`: a no-op on a NULL stack; otherwise
`dynstackClear` followed by `free(stack)`.  The observable outcome is the
`deleteData` invocation trace. -/
def dynstackFree (stack : Option (DynStack α)) : List (Option α) :=
  match stack with
  | none => []
  | some s => (dynstackClear (some s)).2

/-- `dynstackTopToString` from `DynStack.c`: NULL for a NULL stack; an empty
string when `dynstackIsEmpty` holds (the 1-byte `malloc` is assumed to
succeed; the C writes the terminator without checking it); otherwise
`printData(stack->top->data)`.  The `none` in the non-empty branch is the
NULL dereference the C performs when `size` is non-zero but `top` is NULL;
it cannot be reached from a stack whose `size` matches its chain. -/
def dynstackTopToString (stack : Option (DynStack α)) : Option String :=
  match stack with
  | none => none
  | some s =>
    if dynstackIsEmpty (some s) then some ""
    else
      match s.top with
      | [] => none
      | d :: _ => some (s.printData d)

/-- `dynstackToString` from `DynStack.c`: NULL for a NULL stack; otherwise
starts from `dynstackTopToString` and then walks the chain from
`top->next`, appending a newline and the rendering of each frame (all
`realloc` growth is assumed to succeed; the C does not check it). -/
def dynstackToString (stack : Option (DynStack α)) : Option String :=
  match stack with
  | none => none
  | some s =>
    match dynstackTopToString (some s) with
    | none => none
    | some first =>
      let cur : List (Option α) :=
        if dynstackIsEmpty (some s) then [] else s.top.tail
      some (cur.foldl (fun acc d => acc ++ "\n" ++ s.printData d) first)

/-- `dynstackMap` from `DynStack.c`: a no-op when the stack is NULL or
`dynstackIsEmpty`; otherwise walks the chain from `top` and calls
`func(cur->data)` on each frame.  Returns the trace of arguments passed to
`func`, in invocation order: the code passes each frame's `data` field (a
`void *` element), not the frame itself. -/
def dynstackMap (stack : Option (DynStack α)) : List (Option α) :=
  match stack with
  | none => []
  | some s => if dynstackIsEmpty (some s) then [] else s.top

/-- Driver for sequence claims: push every element of `es` in order with a
succeeding allocation; the Boolean records that every push reported
success. -/
def pushAll : DynStack α → List (Option α) → DynStack α × Bool
  | s, [] => (s, true)
  | s, e :: rest =>
    let r := dynstackPush (some s) e true
    let r2 := pushAll (r.1.getD s) rest
    (r2.1, r.2 && r2.2)

/-- Driver for sequence claims: pop `n` times, collecting the returned
pointers in order. -/
def popN : DynStack α → Nat → DynStack α × List (Option α)
  | s, 0 => (s, [])
  | s, n + 1 =>
    let r := dynstackPop (some s)
    let r2 := popN (r.1.getD s) n
    (r2.1, r.2 :: r2.2)

/-! Theorems for the claims. -/

/-- C4.  `dynstackPush` returns `false` without mutating any observable
state when the stack reference is NULL or when the frame allocation fails;
otherwise it links a new frame holding the element as the new top,
increments `size` by exactly one, and returns `true`. -/
theorem c4_push_contract (s : DynStack α) (d : Option α) (ok : Bool) :
    dynstackPush (none : Option (DynStack α)) d ok = (none, false) ∧
    dynstackPush (some s) d false = (some s, false) ∧
    dynstackPush (some s) d true =
      (some { s with top := d :: s.top, size := s.size + 1 }, true) := by
  refine ⟨rfl, rfl, rfl⟩

/-- C5.  `dynstackPop` returns NULL and changes nothing on a NULL stack or
an empty stack; otherwise it detaches the top frame, decrements `size` by
one, and returns the element that was on top (the element itself is not
released, only returned). -/
theorem c5_pop_contract (s : DynStack α) :
    dynstackPop (none : Option (DynStack α)) = (none, none) ∧
    (s.top = [] → dynstackPop (some s) = (some s, none)) ∧
    (∀ d rest, s.top = d :: rest →
      dynstackPop (some s) =
        (some { s with top := rest, size := s.size - 1 }, d)) := by
  refine ⟨rfl, ?_, ?_⟩
  · intro h
    simp [dynstackPop, h]
  · intro d rest h
    simp [dynstackPop, h]

/-- C5 witness: popping the empty stack returns NULL and leaves it alone;
popping a one-element stack returns the stored element and empties the
stack. -/
theorem c5_pop_contract_witness :
    dynstackPop (some (⟨[], 0, fun _ => (), fun _ => ""⟩ : DynStack Nat)) =
      (some ⟨[], 0, fun _ => (), fun _ => ""⟩, none) ∧
    dynstackPop (some (⟨[some 5], 1, fun _ => (), fun _ => ""⟩ : DynStack Nat)) =
      (some ⟨[], 0, fun _ => (), fun _ => ""⟩, some 5) :=
  ⟨(c5_pop_contract ⟨[], 0, fun _ => (), fun _ => ""⟩).2.1 rfl,
   (c5_pop_contract ⟨[some 5], 1, fun _ => (), fun _ => ""⟩).2.2 (some 5) [] rfl⟩

/-- C8.  `dynstackTopToString` on a NULL stack returns NULL, while on a
non-NULL empty stack it returns an empty (zero-length) string, so the two
results are distinguishable. -/
theorem c8_topToString_empty (s : DynStack α) (h : s.size = 0) :
    dynstackTopToString (none : Option (DynStack α)) = none ∧
    dynstackTopToString (some s) = some "" ∧
    dynstackTopToString (some s) ≠
      dynstackTopToString (none : Option (DynStack α)) := by
  refine ⟨rfl, ?_, ?_⟩
  · simp [dynstackTopToString, dynstackIsEmpty, dynstackGetSize, h]
  · simp [dynstackTopToString, dynstackIsEmpty, dynstackGetSize, h]

/-- C8 witness: the empty-stack and NULL-stack results at a concrete
stack. -/
theorem c8_topToString_empty_witness :
    dynstackTopToString (none : Option (DynStack Nat)) = none ∧
    dynstackTopToString (some (⟨[], 0, fun _ => (), fun _ => "x"⟩ : DynStack Nat)) = some "" ∧
    dynstackTopToString (some (⟨[], 0, fun _ => (), fun _ => "x"⟩ : DynStack Nat)) ≠
      dynstackTopToString (none : Option (DynStack Nat)) :=
  c8_topToString_empty ⟨[], 0, fun _ => (), fun _ => "x"⟩ rfl

/-- C10.  Pushing a NULL element on a non-NULL stack succeeds: a frame
storing NULL is linked and `size` increments; popping it afterwards
restores the original stack and returns NULL, the very value `dynstackPop`
returns for an empty or NULL stack. -/
theorem c10_push_null (s : DynStack α) :
    dynstackPush (some s) none true =
      (some { s with top := none :: s.top, size := s.size + 1 }, true) ∧
    dynstackPop ((dynstackPush (some s) none true).1) = (some s, none) ∧
    (dynstackPop ((dynstackPush (some s) none true).1)).2 =
      (dynstackPop (some { s with top := [], size := 0 })).2 ∧
    (dynstackPop ((dynstackPush (some s) none true).1)).2 =
      (dynstackPop (none : Option (DynStack α))).2 := by
  refine ⟨rfl, ?_, rfl, rfl⟩
  simp [dynstackPush, dynstackFrameNew, dynstackPop]

/-- Pushing a list of elements with succeeding allocations reports success
for every push and prepends the list, reversed, to the chain, growing
`size` by the number of pushes. -/
theorem pushAll_eq (s : DynStack α) (es : List (Option α)) :
    pushAll s es =
      ({ s with top := es.reverse ++ s.top, size := s.size + es.length },
        true) := by
  induction es generalizing s with
  | nil =>
    simp [pushAll]
  | cons e rest ih =>
    simp only [pushAll, dynstackPush, dynstackFrameNew, if_pos, Option.getD_some,
      Bool.true_and, ih]
    simp [List.append_assoc, Nat.add_comm, Nat.add_assoc, Nat.add_left_comm]

/-- Popping exactly the length of a prefix of the chain returns that prefix
as the popped values and leaves the rest of the chain, with `size` reduced
by the number of pops. -/
theorem popN_prefix (dd : Option α → Unit) (pd : Option α → String)
    (l t : List (Option α)) (n : Nat) :
    popN ⟨l ++ t, n, dd, pd⟩ l.length = (⟨t, n - l.length, dd, pd⟩, l) := by
  induction l generalizing n with
  | nil => simp [popN]
  | cons d rest ih =>
    simp only [List.cons_append, List.length_cons, popN, dynstackPop,
      Option.getD_some, ih]
    simp [Nat.sub_sub, Nat.add_comm]

/-- C1.  Pushing `e1, …, en` (all allocations succeeding) and then popping
`n` times succeeds on every push and returns exactly `en, …, e1`: the
popped pointers are the pushed pointers themselves, in reverse push
order. -/
theorem c1_lifo (s : DynStack α) (es : List (Option α)) :
    (pushAll s es).2 = true ∧
    (popN (pushAll s es).1 es.length).2 = es.reverse ∧
    (popN (pushAll s es).1 es.length).1 = s := by
  have h := pushAll_eq s es
  have hp := popN_prefix s.deleteData s.printData es.reverse s.top
    (s.size + es.length)
  rw [List.length_reverse] at hp
  refine ⟨by rw [h], ?_, ?_⟩
  · rw [h]
    simp only [hp]
  · rw [h]
    simp only [hp]
    simp [Nat.add_sub_cancel]

/-- C6.  Starting from a successfully constructed stack, after `k` pushes
(all allocations succeeding) and `j ≤ k` pops, `dynstackGetSize` returns
`k - j`; `dynstackIsEmpty` is true exactly when `dynstackGetSize` is 0; and
on a NULL stack reference `dynstackGetSize` returns 0. -/
theorem c6_size_counts (d : Option α → Unit) (p : Option α → String)
    (es : List (Option α)) (j : Nat) (s0 : DynStack α)
    (h0 : dynstackNew (some d) (some p) true = some s0)
    (hj : j ≤ es.length) :
    dynstackGetSize (some (popN (pushAll s0 es).1 j).1) = es.length - j ∧
    (∀ t : Option (DynStack α),
      dynstackIsEmpty t = true ↔ dynstackGetSize t = 0) ∧
    dynstackGetSize (none : Option (DynStack α)) = 0 := by
  have hs0 : s0 = ⟨[], 0, d, p⟩ := by
    simp only [dynstackNew, if_pos] at h0
    exact (Option.some_injective _ h0).symm
  subst hs0
  refine ⟨?_, ?_, rfl⟩
  · rw [pushAll_eq]
    have hlen : (es.reverse.take j).length = j := by
      rw [List.length_take, List.length_reverse]
      exact Nat.min_eq_left hj
    have hp := popN_prefix d p (es.reverse.take j) (es.reverse.drop j)
      es.length
    rw [List.take_append_drop, hlen] at hp
    simp only [List.append_nil, Nat.zero_add]
    rw [hp]
    rfl
  · intro t
    cases t <;> simp [dynstackIsEmpty, dynstackGetSize]

/-- C6 witness: three pushes then two pops from a fresh stack leave size
3 - 2. -/
theorem c6_size_counts_witness :
    dynstackGetSize (some (popN
        (pushAll (⟨[], 0, fun _ => (), fun _ => ""⟩ : DynStack Nat)
          [some 1, some 2, some 3]).1 2).1) = 3 - 2 ∧
    (∀ t : Option (DynStack Nat),
      dynstackIsEmpty t = true ↔ dynstackGetSize t = 0) ∧
    dynstackGetSize (none : Option (DynStack Nat)) = 0 :=
  c6_size_counts (fun _ => ()) (fun _ => "") [some 1, some 2, some 3] 2
    ⟨[], 0, fun _ => (), fun _ => ""⟩ rfl (by decide)

/-- The clear loop applied to a stack whose `size` field equals its chain
length pops every frame in top-to-bottom order and ends empty. -/
theorem dynstackClearGo_eq (dd : Option α → Unit) (pd : Option α → String)
    (top : List (Option α)) :
    dynstackClearGo dd pd top top.length = (⟨[], 0, dd, pd⟩, top) := by
  induction top with
  | nil => rfl
  | cons d rest ih => simp [dynstackClearGo, ih]

/-- C7.  On a non-NULL stack whose `size` matches its chain,
`dynstackClear` invokes the stored releaser exactly once on each element
that was present (the invocation trace is precisely the chain, top to
bottom) and leaves the stack valid and empty, with `size` 0 and no top
frame; on a NULL stack reference it is a no-op. -/
theorem c7_clear_releases_all (s : DynStack α) (h : s.size = s.top.length) :
    (dynstackClear (some s)).2 = s.top ∧
    (dynstackClear (some s)).1 =
      some ⟨[], 0, s.deleteData, s.printData⟩ ∧
    dynstackClear (none : Option (DynStack α)) = (none, []) := by
  have hg := dynstackClearGo_eq s.deleteData s.printData s.top
  refine ⟨?_, ?_, rfl⟩ <;> simp [dynstackClear, h, hg]

/-- C7 witness: clearing a two-element stack releases both stored pointers
once each, in top-to-bottom order, and empties the stack. -/
theorem c7_clear_releases_all_witness :
    (dynstackClear (some (⟨[some 4, none], 2, fun _ => (), fun _ => ""⟩ :
        DynStack Nat))).2 = [some 4, none] ∧
    (dynstackClear (some (⟨[some 4, none], 2, fun _ => (), fun _ => ""⟩ :
        DynStack Nat))).1 = some ⟨[], 0, fun _ => (), fun _ => ""⟩ ∧
    dynstackClear (none : Option (DynStack Nat)) = (none, []) :=
  c7_clear_releases_all ⟨[some 4, none], 2, fun _ => (), fun _ => ""⟩ rfl

/-- C3.  On a non-NULL stack whose `size` matches its chain and whose
elements are `[top = a, b, c]`, `dynstackToString` returns `render(a)`,
a line break, `render(b)`, a line break, `render(c)`, with no trailing
line break; on a non-NULL empty stack it returns the empty string. -/
theorem c3_toString_layout (s : DynStack α) (a b c : Option α)
    (h : s.size = s.top.length) :
    (s.top = [a, b, c] →
      dynstackToString (some s) =
        some (s.printData a ++ "\n" ++ s.printData b ++ "\n" ++
          s.printData c)) ∧
    (s.top = [] → dynstackToString (some s) = some "") := by
  constructor
  · intro ht
    have hs : s.size = 3 := by rw [h, ht]; rfl
    simp [dynstackToString, dynstackTopToString, dynstackIsEmpty,
      dynstackGetSize, hs, ht]
  · intro ht
    have hs : s.size = 0 := by rw [h, ht]; rfl
    simp [dynstackToString, dynstackTopToString, dynstackIsEmpty,
      dynstackGetSize, hs]

/-- C3 witness: rendering a concrete three-element stack and a concrete
empty stack. -/
theorem c3_toString_layout_witness :
    dynstackToString (some (⟨[some 1, some 2, some 3], 3, fun _ => (),
        fun _ => "e"⟩ : DynStack Nat)) =
      some ("e" ++ "\n" ++ "e" ++ "\n" ++ "e") ∧
    dynstackToString (some (⟨[], 0, fun _ => (), fun _ => "e"⟩ :
        DynStack Nat)) = some "" :=
  ⟨(c3_toString_layout ⟨[some 1, some 2, some 3], 3, fun _ => (),
      fun _ => "e"⟩ (some 1) (some 2) (some 3) rfl).1 rfl,
   (c3_toString_layout ⟨[], 0, fun _ => (), fun _ => "e"⟩ none none none
      rfl).2 rfl⟩

/-- One public API call on a live stack, for stating the data-structure
invariant across arbitrary call sequences.  Query calls (`peek`,
`getSize`, `isEmpty`, `toString`, `map`) take the stack as `const` (or, for
`dynstackMap`, never write to a frame or to the header) and leave its state
unchanged. -/
inductive StackOp (α : Type) where
  | push (data : Option α) (allocOk : Bool)
  | pop
  | peek
  | getSize
  | isEmpty
  | clear
  | toString
  | map

/-- The state of a non-NULL stack after one public API call. -/
def applyOp (s : DynStack α) : StackOp α → DynStack α
  | .push d ok => ((dynstackPush (some s) d ok).1).getD s
  | .pop => ((dynstackPop (some s)).1).getD s
  | .clear => ((dynstackClear (some s)).1).getD s
  | .peek => s
  | .getSize => s
  | .isEmpty => s
  | .toString => s
  | .map => s

/-- The state of a non-NULL stack after a sequence of public API calls. -/
def runOps : DynStack α → List (StackOp α) → DynStack α
  | s, [] => s
  | s, op :: rest => runOps (applyOp s op) rest

/-- Every public API call preserves agreement between the `size` field and
the length of the frame chain. -/
theorem applyOp_size_eq (s : DynStack α) (op : StackOp α)
    (h : s.size = s.top.length) :
    (applyOp s op).size = (applyOp s op).top.length := by
  cases op with
  | push d ok =>
    cases ok with
    | false => simpa [applyOp, dynstackPush, dynstackFrameNew] using h
    | true => simp [applyOp, dynstackPush, dynstackFrameNew, h]
  | pop =>
    cases htop : s.top with
    | nil => simpa [applyOp, dynstackPop, htop] using h
    | cons d rest => simp [applyOp, dynstackPop, htop, h, htop ▸ h]
  | clear =>
    simp [applyOp, dynstackClear, h, dynstackClearGo_eq]
  | peek => exact h
  | getSize => exact h
  | isEmpty => exact h
  | toString => exact h
  | map => exact h

/-- Agreement between `size` and the chain length is preserved along any
sequence of public API calls. -/
theorem runOps_size_eq (ops : List (StackOp α)) (s : DynStack α)
    (h : s.size = s.top.length) :
    (runOps s ops).size = (runOps s ops).top.length := by
  induction ops generalizing s with
  | nil => exact h
  | cons op rest ih => exact ih (applyOp s op) (applyOp_size_eq s op h)

/-- C9.  Starting from a successfully constructed stack, after any sequence
of public API calls (push, pop, peek, size, isEmpty, clear, toString,
map) the `size` field equals the number of frames reachable from `top`,
and `top` is NULL exactly when `size` is 0. -/
theorem c9_size_invariant (d : Option α → Unit) (p : Option α → String)
    (s0 : DynStack α) (h0 : dynstackNew (some d) (some p) true = some s0)
    (ops : List (StackOp α)) :
    (runOps s0 ops).size = (runOps s0 ops).top.length ∧
    ((runOps s0 ops).top = [] ↔ (runOps s0 ops).size = 0) := by
  have hs0 : s0 = ⟨[], 0, d, p⟩ := by
    simp only [dynstackNew, if_pos] at h0
    exact (Option.some_injective _ h0).symm
  subst hs0
  have h := runOps_size_eq ops ⟨[], 0, d, p⟩ rfl
  refine ⟨h, ?_⟩
  rw [h]
  exact List.length_eq_zero.symm

/-- C9 witness: the invariant after a concrete call sequence containing a
push, a failed push, a pop, a clear and every query. -/
theorem c9_size_invariant_witness :
    (runOps (⟨[], 0, fun _ => (), fun _ => ""⟩ : DynStack Nat)
        [.push (some 1) true, .push none true, .push (some 2) false, .peek,
          .getSize, .isEmpty, .toString, .map, .pop, .clear]).size =
      (runOps (⟨[], 0, fun _ => (), fun _ => ""⟩ : DynStack Nat)
        [.push (some 1) true, .push none true, .push (some 2) false, .peek,
          .getSize, .isEmpty, .toString, .map, .pop, .clear]).top.length ∧
    ((runOps (⟨[], 0, fun _ => (), fun _ => ""⟩ : DynStack Nat)
        [.push (some 1) true, .push none true, .push (some 2) false, .peek,
          .getSize, .isEmpty, .toString, .map, .pop, .clear]).top = [] ↔
      (runOps (⟨[], 0, fun _ => (), fun _ => ""⟩ : DynStack Nat)
        [.push (some 1) true, .push none true, .push (some 2) false, .peek,
          .getSize, .isEmpty, .toString, .map, .pop, .clear]).size = 0) :=
  c9_size_invariant (fun _ => ()) (fun _ => "")
    ⟨[], 0, fun _ => (), fun _ => ""⟩ rfl
    [.push (some 1) true, .push none true, .push (some 2) false, .peek,
      .getSize, .isEmpty, .toString, .map, .pop, .clear]

/-- C2.  `dynstackMap` in `DynStack.c` does walk the chain top to bottom,
invoking `func` once per frame, but each invocation receives the frame's
`data` field — the stored element — not the frame itself: on a two-element
stack the invocation trace is exactly the two stored elements.  (The
header declares the callback as taking a `DynFrame *`, which the
implementation contradicts.) -/
theorem c2_map_passes_data :
    dynstackMap (some (⟨[some 7, some 8], 2, fun _ => (), fun _ => ""⟩ :
      DynStack Nat)) = [some 7, some 8] := rfl
